import Mathlib

/-!
Verification development for the Telegram housing-search backend
(`backend/server.py`).  The Python source is shallowly embedded below:
pure fragments become Lean functions, the MongoDB store and the random
number generator become explicit environment inputs, and fallible code
returns `Except`.  Floating-point coordinates, prices and timestamps are
modelled as rationals; the great-circle distance of the external
`geopy` library is modelled over the reals (see `haversineKm`).
-/

namespace HousingSearch

/-- A geographic point, longitude and latitude in decimal degrees
(the GeoJSON coordinate order `[lon, lat]` used throughout `server.py`).
Coordinates are modelled as rationals. -/
structure GeoPoint where
  lon : ℚ
  lat : ℚ
deriving DecidableEq

/-- Invariant of the data model: longitude in [-180, 180], latitude in
[-90, 90]. -/
def GeoPoint.Valid (p : GeoPoint) : Prop :=
  -180 ≤ p.lon ∧ p.lon ≤ 180 ∧ -90 ≤ p.lat ∧ p.lat ≤ 90

instance (p : GeoPoint) : Decidable p.Valid := by
  unfold GeoPoint.Valid; infer_instance

/-- One entry of the static `MOSCOW_METRO_STATIONS` list in `server.py`. -/
structure StationData where
  name : String
  name_en : String
  coordinates : GeoPoint
  line : String
  line_color : String
deriving DecidableEq

/-- The static reference-point data of `server.py` (lines 133-239),
fifteen Moscow metro stations. -/
def MOSCOW_METRO_STATIONS : List StationData :=
  [ ⟨"Сокольники", "Sokolniki", ⟨37.6799, 55.7886⟩, "Сокольническая", "#D50000"⟩,
    ⟨"Красносельская", "Krasnoselskaya", ⟨37.6656, 55.7797⟩, "Сокольническая", "#D50000"⟩,
    ⟨"Комсомольская", "Komsomolskaya", ⟨37.6544, 55.7744⟩, "Сокольническая", "#D50000"⟩,
    ⟨"Красные ворота", "Krasnye Vorota", ⟨37.6479, 55.7687⟩, "Сокольническая", "#D50000"⟩,
    ⟨"Чистые пруды", "Chistye Prudy", ⟨37.6384, 55.7648⟩, "Сокольническая", "#D50000"⟩,
    ⟨"Лубянка", "Lubyanka", ⟨37.6282, 55.7581⟩, "Сокольническая", "#D50000"⟩,
    ⟨"Охотный ряд", "Okhotny Ryad", ⟨37.6155, 55.7573⟩, "Сокольническая", "#D50000"⟩,
    ⟨"Библиотека имени Ленина", "Biblioteka imeni Lenina", ⟨37.6109, 55.7515⟩, "Сокольническая", "#D50000"⟩,
    ⟨"Кропоткинская", "Kropotkinskaya", ⟨37.6035, 55.7456⟩, "Сокольническая", "#D50000"⟩,
    ⟨"Парк культуры", "Park Kultury", ⟨37.5936, 55.7355⟩, "Сокольническая", "#D50000"⟩,
    ⟨"Новокузнецкая", "Novokuznetskaya", ⟨37.6291, 55.7425⟩, "Замоскворецкая", "#4CAF50"⟩,
    ⟨"Третьяковская", "Tretyakovskaya", ⟨37.6252, 55.7406⟩, "Замоскворецкая", "#4CAF50"⟩,
    ⟨"Театральная", "Teatralnaya", ⟨37.6201, 55.7581⟩, "Замоскворецкая", "#4CAF50"⟩,
    ⟨"Тверская", "Tverskaya", ⟨37.6054, 55.7669⟩, "Замоскворецкая", "#4CAF50"⟩,
    ⟨"Маяковская", "Mayakovskaya", ⟨37.5959, 55.7696⟩, "Замоскворецкая", "#4CAF50"⟩ ]

/-- A stored metro-station document (the `MetroStation` pydantic model);
the random uuid of the `id` field is supplied by the caller in the model. -/
structure MetroStation where
  id : String
  name : String
  name_en : Option String
  location : GeoPoint
  line : String
  line_color : String
deriving DecidableEq

/-- `load_moscow_metro_stations` (lines 241-267).  The metro-station
collection is the argument and the result; `ok = false` models the
swallowed exception path (`except ... print`), which leaves the
collection unchanged.  `ids` supplies the uuid for each inserted
station.  If the collection already holds documents, nothing is
inserted. -/
def load_moscow_metro_stations (ok : Bool) (ids : ℕ → String)
    (coll : List MetroStation) : List MetroStation :=
  if ok = false then coll
  else if coll.length > 0 then coll
  else coll ++ (MOSCOW_METRO_STATIONS.enum.map fun si =>
    { id := ids si.1, name := si.2.name, name_en := some si.2.name_en,
      location := si.2.coordinates, line := si.2.line,
      line_color := si.2.line_color })

/-- The draws that `scrape_cian_properties` (lines 270-336) takes from
Python's global `random`, one stream per call site, indexed by station
number (0-4) and per-station listing number (0-1).  `Valid` states the
ranges that `random.uniform` / `random.randint` / `random.choice`
guarantee. -/
structure ScrapeRand where
  baseJit : ℕ → ℚ
  titleRooms : ℕ → ℕ → ℕ
  titleArea : ℕ → ℕ → ℕ
  price : ℕ → ℕ → ℕ
  jitLon : ℕ → ℕ → ℚ
  jitLat : ℕ → ℕ → ℚ
  street : ℕ → ℕ → ℕ
  house : ℕ → ℕ → ℕ
  area : ℕ → ℕ → ℕ
  rooms : ℕ → ℕ → ℕ
  phoneA : ℕ → ℕ → ℕ
  phoneB : ℕ → ℕ → ℕ
  phoneC : ℕ → ℕ → ℕ
  urlNum : ℕ → ℕ → ℕ

/-- Ranges of the random draws, as guaranteed by `random.uniform(-0.01, 0.01)`,
`random.uniform(-0.005, 0.005)`, `random.choice` on a 3/4-element list and
the various `random.randint` bounds of the source. -/
def ScrapeRand.Valid (r : ScrapeRand) : Prop :=
  (∀ i < 6, -1/100 ≤ r.baseJit i ∧ r.baseJit i ≤ 1/100) ∧
  (∀ i < 5, ∀ j < 2,
    r.titleRooms i j < 3 ∧
    (35 ≤ r.titleArea i j ∧ r.titleArea i j ≤ 100) ∧
    (40000 ≤ r.price i j ∧ r.price i j ≤ 150000) ∧
    (-5/1000 ≤ r.jitLon i j ∧ r.jitLon i j ≤ 5/1000) ∧
    (-5/1000 ≤ r.jitLat i j ∧ r.jitLat i j ≤ 5/1000) ∧
    r.street i j < 4 ∧
    (1 ≤ r.house i j ∧ r.house i j ≤ 50) ∧
    (35 ≤ r.area i j ∧ r.area i j ≤ 100) ∧
    (1 ≤ r.rooms i j ∧ r.rooms i j ≤ 3) ∧
    (100 ≤ r.phoneA i j ∧ r.phoneA i j ≤ 999) ∧
    (10 ≤ r.phoneB i j ∧ r.phoneB i j ≤ 99) ∧
    (10 ≤ r.phoneC i j ∧ r.phoneC i j ≤ 99) ∧
    (100000 ≤ r.urlNum i j ∧ r.urlNum i j ≤ 999999))

/-- One mock listing dictionary as produced by `scrape_cian_properties`. -/
structure MockProp where
  title : String
  price : ℕ
  coordinates : GeoPoint
  address : String
  area : ℕ
  rooms : ℕ
  description : String
  contact_info : String
  images : List String
  source_url : String
deriving DecidableEq

/-- The three fixed mock listings of `scrape_cian_properties`
(lines 274-311), with the `random.uniform(-0.01, 0.01)` coordinate
jitter supplied by `r.baseJit`. -/
def cianBase (r : ScrapeRand) : List MockProp :=
  [ { title := "2-комнатная квартира, 65 м²", price := 85000,
      coordinates := ⟨37.6176 + r.baseJit 0, 55.7558 + r.baseJit 1⟩,
      address := "ул. Тверская, 12", area := 65, rooms := 2,
      description := "Уютная квартира в центре Москвы",
      contact_info := "+7 (495) 123-45-67", images := [],
      source_url := "https://www.cian.ru/rent/flat/123456/" },
    { title := "1-комнатная квартира, 42 м²", price := 55000,
      coordinates := ⟨37.6156 + r.baseJit 2, 55.7548 + r.baseJit 3⟩,
      address := "ул. Арбат, 25", area := 42, rooms := 1,
      description := "Светлая квартира недалеко от метро",
      contact_info := "+7 (495) 987-65-43", images := [],
      source_url := "https://www.cian.ru/rent/flat/789012/" },
    { title := "3-комнатная квартира, 95 м²", price := 120000,
      coordinates := ⟨37.6200 + r.baseJit 4, 55.7580 + r.baseJit 5⟩,
      address := "Большая Никитская, 7", area := 95, rooms := 3,
      description := "Просторная квартира с видом на город",
      contact_info := "+7 (495) 555-77-88", images := [],
      source_url := "https://www.cian.ru/rent/flat/345678/" } ]

/-- `random.choice(['1', '2', '3'])`, with the chosen index a draw. -/
def chooseRoomDigit (k : ℕ) : String :=
  if k = 0 then "1" else if k = 1 then "2" else "3"

/-- `random.choice(['Московская', 'Центральная', 'Садовая', 'Парковая'])`. -/
def chooseStreet (k : ℕ) : String :=
  if k = 0 then "Московская" else if k = 1 then "Центральная"
  else if k = 2 then "Садовая" else "Парковая"

/-- The synthetic listing appended for station `i`, listing `j`
(lines 316-330). -/
def cianStationProp (r : ScrapeRand) (i j : ℕ) (s : StationData) : MockProp :=
  { title := chooseRoomDigit (r.titleRooms i j) ++ "-комнатная квартира, " ++
      toString (r.titleArea i j) ++ " м²",
    price := r.price i j,
    coordinates := ⟨s.coordinates.lon + r.jitLon i j,
                    s.coordinates.lat + r.jitLat i j⟩,
    address := "ул. " ++ chooseStreet (r.street i j) ++ ", " ++
      toString (r.house i j),
    area := r.area i j,
    rooms := r.rooms i j,
    description := "Квартира рядом с метро " ++ s.name,
    contact_info := "+7 (495) " ++ toString (r.phoneA i j) ++ "-" ++
      toString (r.phoneB i j) ++ "-" ++ toString (r.phoneC i j),
    images := [],
    source_url := "https://www.cian.ru/rent/flat/" ++ toString (r.urlNum i j) ++ "/" }

/-- The two listings generated for station index `i`
(`for i in range(2)` at line 315). -/
def cianStationPair (r : ScrapeRand) (i : ℕ) : List MockProp :=
  let s := MOSCOW_METRO_STATIONS.getD i ⟨"", "", ⟨0, 0⟩, "", ""⟩
  [cianStationProp r i 0 s, cianStationProp r i 1 s]

/-- `scrape_cian_properties` (lines 270-336): three fixed mock listings
plus two synthetic listings for each of the first five metro stations.
`fail = true` models the function's own `except` branch, which swallows
any exception and returns the empty list.  The `location` and
`radius_km` arguments are ignored by the source, as here. -/
def scrape_cian_properties (fail : Bool) (r : ScrapeRand)
    (location : String) (radius_km : ℚ) : List MockProp :=
  if fail then []
  else cianBase r ++ (List.range 5).flatMap (cianStationPair r)

/-- A property document as stored in / returned from the `properties`
collection (the `PropertyListing` shape plus the Mongo `_id`); optional
fields model the `.get(...)` accesses of the source. -/
structure DbProp where
  idStr : Option String
  title : String
  price : ℚ
  coordinates : GeoPoint
  address : String
  area : Option ℚ
  rooms : Option ℕ
  property_type : Option String
  description : Option String
  contact_info : Option String
  images : List String
  source_url : Option String
  liked_by : List ℤ
deriving DecidableEq

/-- The mock listing dictionary after `search_properties` attaches the
GeoJSON `location` (lines 469-472); fields absent from the mock
dictionary are `none` / empty. -/
def MockProp.toDbProp (m : MockProp) : DbProp :=
  { idStr := none, title := m.title, price := (m.price : ℚ),
    coordinates := m.coordinates, address := m.address,
    area := some (m.area : ℚ), rooms := some m.rooms,
    property_type := none, description := some m.description,
    contact_info := some m.contact_info, images := m.images,
    source_url := some m.source_url, liked_by := [] }

/-- A search-result record: a property document with the derived
`distance_to_center` attached. -/
structure ResultProp (α : Type) where
  prop : DbProp
  distance_to_center : α
deriving DecidableEq

/-- Python's `round(x, 2)` (two decimal places; the model uses
round-half-up where Python rounds half to even, a difference only at
exact half-cent values). -/
def round2 {α : Type} [LinearOrderedField α] [FloorRing α] (x : α) : α :=
  ((round (100 * x) : ℤ) : α) / 100

/-- The `GeospatialFilter` pydantic model (lines 100-106); `center` is
the `[lon, lat]` pair. -/
structure GeospatialFilter where
  center : GeoPoint
  radius_km : ℚ
  property_type : Option String
  min_price : Option ℚ
  max_price : Option ℚ
  rooms : Option (List ℤ)
deriving DecidableEq

/-- The data determined by the cache-key string
`f"{center}_{radius}_{json.dumps(filters, sort_keys=True)}"` of
`get_cache_key`: the `f"{center}"` and `f"{radius}"` prefixes, then the
filter fields in `sort_keys=True` order (center, max_price, min_price,
property_type, radius_km, rooms).  `rooms` is serialized by
`json.dumps` as a JSON list, so its element order is preserved. -/
structure CacheKey where
  centerPre : GeoPoint
  radiusPre : ℚ
  center : GeoPoint
  max_price : Option ℚ
  min_price : Option ℚ
  property_type : Option String
  radius_km : ℚ
  rooms : Option (List ℤ)
deriving DecidableEq

/-- `get_cache_key` (lines 342-345):
`key_data = f"{center}_{radius}_{json.dumps(filters, sort_keys=True)}"`
followed by `hashlib.md5(key_data).hexdigest()`.  The decimal rendering
of the floats and the md5 digest are external to the repository; the
composite is modelled as an injective fingerprint of exactly the data
the key string determines (genuine md5 identifies these up to hash
collisions and renders numbers to decimal text). -/
def get_cache_key (f : GeospatialFilter) : CacheKey :=
  ⟨f.center, f.radius_km, f.center, f.max_price, f.min_price,
    f.property_type, f.radius_km, f.rooms⟩

/-- `cache_ttl = 1800` (line 340), in seconds. -/
def cache_ttl : ℚ := 1800

/-- The in-process `property_cache` dictionary: fingerprint to
(result list, `time.time()` timestamp). -/
def CacheMap (α : Type) : Type :=
  CacheKey → Option (List (ResultProp α) × ℚ)

/-- The empty `property_cache = {}` of line 339. -/
def emptyCache (α : Type) : CacheMap α := fun _ => none

/-- The cache read of `search_properties` (lines 404-407): a stored
entry is served only while `time.time() - timestamp < cache_ttl` is
strict; otherwise the lookup behaves as a miss. -/
def cacheGet {α : Type} (c : CacheMap α) (k : CacheKey) (now : ℚ) :
    Option (List (ResultProp α)) :=
  match c k with
  | none => none
  | some e => if now - e.2 < cache_ttl then some e.1 else none

/-- The cache write of `search_properties` (lines 476-479): stores the
result list with the current time, overwriting any prior entry. -/
def cachePut {α : Type} (c : CacheMap α) (k : CacheKey)
    (props : List (ResultProp α)) (now : ℚ) : CacheMap α :=
  fun k' => if k' = k then some (props, now) else c k'

/-- The environment of one `search_properties` call: the current time,
the outcome of the MongoDB `$near` query (already filtered and ordered
store-side, `.error` when the query raises), whether a `geodesic` call
raises, whether the synchronous scraper's body raises, and the random
draws for the synchronous and background scraper invocations. -/
structure SearchEnv where
  now : ℚ
  storeResult : Except Unit (List DbProp)
  distRaises : Bool
  scrapeFail : Bool
  rand : ScrapeRand
  bgScrapeFail : Bool
  bgRand : ScrapeRand

/-- The observable outcome of one `search_properties` call: the HTTP
result (`.error 500` models `raise HTTPException(status_code=500, ...)`),
the cache afterwards, and whether the store was queried, the fallback
generator invoked, and a background task scheduled, plus the number of
`geodesic` distance computations performed. -/
structure SearchResult (α : Type) where
  result : Except ℕ (List (ResultProp α))
  cache : CacheMap α
  storeQueried : Bool
  scrapeCalled : Bool
  bgScheduled : Bool
  distCalls : ℕ

/-- The fallback response assembly of lines 460-473: each mock listing
is kept when its computed distance to the center is at most the radius,
and the kept listings get `distance_to_center = round(distance, 2)`
attached (with the GeoJSON `location` set, see `MockProp.toDbProp`). -/
def mockAttached {α : Type} [LinearOrderedField α] [FloorRing α]
    (dist : GeoPoint → GeoPoint → α) (f : GeospatialFilter)
    (mocks : List MockProp) : List (ResultProp α) :=
  (mocks.filter fun m =>
      decide (dist f.center m.coordinates ≤ (f.radius_km : α))).map
    fun m => ⟨m.toDbProp, round2 (dist f.center m.coordinates)⟩

/-- The store-result transformation of lines 443-452: each found
document gets `distance_to_center = round(distance, 2)` attached. -/
def storeAttached {α : Type} [LinearOrderedField α] [FloorRing α]
    (dist : GeoPoint → GeoPoint → α) (f : GeospatialFilter)
    (found : List DbProp) : List (ResultProp α) :=
  found.map fun p => ⟨p, round2 (dist f.center p.coordinates)⟩

/-- `search_properties` (lines 397-484).  The distance evaluator
(`geopy.distance.geodesic(...).kilometers`) is the `dist` argument.
Control flow of the source: cache check first; then the store query
(at most 50 documents, distance attached to each); if the store yields
nothing, a background scrape-and-store task is scheduled and the
fallback response is built synchronously; the result list is cached and
returned.  Any exception in the `try` body — a failing store query or a
failing distance computation — is re-raised as an HTTP 500; the
fallback generator's failures are swallowed inside it and yield the
empty mock list. -/
def search_properties {α : Type} [LinearOrderedField α] [FloorRing α]
    (dist : GeoPoint → GeoPoint → α) (f : GeospatialFilter)
    (cache : CacheMap α) (env : SearchEnv) : SearchResult α :=
  let key := get_cache_key f
  match cacheGet cache key env.now with
  | some props => ⟨.ok props, cache, false, false, false, 0⟩
  | none =>
    match env.storeResult with
    | .error _ => ⟨.error 500, cache, true, false, false, 0⟩
    | .ok found0 =>
      let found := found0.take 50
      if found.isEmpty then
        let mocks := scrape_cian_properties env.scrapeFail env.rand "Moscow" f.radius_km
        if !mocks.isEmpty && env.distRaises then
          ⟨.error 500, cache, true, true, true, 0⟩
        else
          let props := mockAttached dist f mocks
          ⟨.ok props, cachePut cache key props env.now, true, true, true, mocks.length⟩
      else if env.distRaises then
        ⟨.error 500, cache, true, false, false, 0⟩
      else
        let props := storeAttached dist f found
        ⟨.ok props, cachePut cache key props env.now, true, false, false, found.length⟩

/-- `update_one({"source_url": ...}, {"$set": ...}, upsert=True)` on the
first matching document (lines 509-513). -/
def replaceFirstBySourceUrl (p : DbProp) : List DbProp → List DbProp
  | [] => []
  | q :: qs =>
    if q.source_url = p.source_url then p :: qs
    else q :: replaceFirstBySourceUrl p qs

/-- Idempotent insert-or-replace keyed on `source_url`. -/
def upsert_by_source_url (coll : List DbProp) (p : DbProp) : List DbProp :=
  if coll.any fun q => q.source_url = p.source_url then
    replaceFirstBySourceUrl p coll
  else coll ++ [p]

/-- `scrape_and_store_properties` (lines 486-518), the background task:
scrape again (an independent random stream) and upsert every produced
listing into the `properties` collection by `source_url`.  `fail = true`
models the task's own swallowed exception, which leaves the collection
unchanged. -/
def scrape_and_store_properties (fail scrapeFailed : Bool) (r : ScrapeRand)
    (f : GeospatialFilter) (coll : List DbProp) : List DbProp :=
  if fail then coll
  else ((scrape_cian_properties scrapeFailed r "Moscow" f.radius_km).map
      MockProp.toDbProp).foldl upsert_by_source_url coll

/-- `find_one({"id": property_id})`. -/
def findById (coll : List DbProp) (pid : String) : Option DbProp :=
  coll.find? fun p => p.idStr = some pid

/-- The `$addToSet` update of `like_property` applied to the first
document matching the id: appends the telegram id to `liked_by` unless
already present. -/
def addLikeFirst (pid : String) (tid : ℤ) : List DbProp → List DbProp
  | [] => []
  | p :: ps =>
    if p.idStr = some pid then
      (if tid ∈ p.liked_by then p
       else { p with liked_by := p.liked_by ++ [tid] }) :: ps
    else p :: addLikeFirst pid tid ps

/-- `like_property` (lines 550-566): 404 when no document matches,
otherwise the `$addToSet` update succeeds. -/
def like_property (coll : List DbProp) (pid : String) (tid : ℤ) :
    Except ℕ (List DbProp) :=
  if (findById coll pid).isSome then .ok (addLikeFirst pid tid coll)
  else .error 404

/-- The payload returned by `get_property_contact` on success. -/
structure ContactInfoResponse where
  contact_info : Option String
  source_url : Option String
deriving DecidableEq

/-- `get_property_contact` (lines 568-587): 404 when the listing does
not exist, 403 when the requesting telegram id has not liked it,
otherwise the contact info and source url. -/
def get_property_contact (coll : List DbProp) (pid : String) (tid : ℤ) :
    Except ℕ ContactInfoResponse :=
  match findById coll pid with
  | none => .error 404
  | some p =>
    if tid ∈ p.liked_by then .ok ⟨p.contact_info, p.source_url⟩
    else .error 403

/-- The mean Earth radius in kilometers used by the spherical model. -/
noncomputable def EARTH_RADIUS_KM : ℝ := 6371

/-- Degrees to radians. -/
noncomputable def deg2rad (d : ℝ) : ℝ := d * Real.pi / 180

/-- Modelled from the spec: the distance evaluator.  The source calls
`geopy.distance.geodesic(...).kilometers`, an external library not part
of this repository; following spec section 4.1 ("a great-circle
(ellipsoidal or spherical) formula"), it is modelled as the spherical
haversine great-circle distance in kilometers over the reals, between
two points given in decimal degrees. -/
noncomputable def haversineKm (a b : GeoPoint) : ℝ :=
  2 * EARTH_RADIUS_KM *
    Real.arcsin (Real.sqrt
      (Real.sin (deg2rad ((b.lat : ℝ) - (a.lat : ℝ)) / 2) ^ 2 +
       Real.cos (deg2rad (a.lat : ℝ)) * Real.cos (deg2rad (b.lat : ℝ)) *
       Real.sin (deg2rad ((b.lon : ℝ) - (a.lon : ℝ)) / 2) ^ 2))

/-! ### Shared fixtures and unfolding lemmas -/

/-- One concrete, range-respecting assignment of random draws: every
jitter is zero and every bounded draw sits at its lower bound. -/
def witRand : ScrapeRand :=
  { baseJit := fun _ => 0, titleRooms := fun _ _ => 0,
    titleArea := fun _ _ => 35, price := fun _ _ => 40000,
    jitLon := fun _ _ => 0, jitLat := fun _ _ => 0,
    street := fun _ _ => 0, house := fun _ _ => 1,
    area := fun _ _ => 35, rooms := fun _ _ => 1,
    phoneA := fun _ _ => 100, phoneB := fun _ _ => 10,
    phoneC := fun _ _ => 10, urlNum := fun _ _ => 100000 }

theorem witRand_valid : witRand.Valid := by
  constructor
  · intro i _; constructor <;> norm_num [witRand]
  · intro i _ j _
    refine ⟨?_, ?_, ?_, ?_, ?_, ?_, ?_, ?_, ?_, ?_, ?_, ?_, ?_⟩ <;>
      norm_num [witRand]

/-- A trivial distance evaluator used to instantiate the generic search
model on executable inputs. -/
def dist0 : GeoPoint → GeoPoint → ℚ := fun _ _ => 0

/-- A concrete filter centered in downtown Moscow, radius 2 km. -/
def fW : GeospatialFilter := ⟨⟨37.6176, 55.7558⟩, 2, none, none, none, none⟩

theorem cacheGet_cachePut_fresh {α : Type} (c : CacheMap α) (k : CacheKey)
    (v : List (ResultProp α)) (t now : ℚ) (h : now - t < cache_ttl) :
    cacheGet (cachePut c k v t) k now = some v := by
  simp [cacheGet, cachePut, h]

theorem cacheGet_cachePut_stale {α : Type} (c : CacheMap α) (k : CacheKey)
    (v : List (ResultProp α)) (t now : ℚ) (h : cache_ttl ≤ now - t) :
    cacheGet (cachePut c k v t) k now = none := by
  simp [cacheGet, cachePut, not_lt.mpr h]

/-- Unfolding lemma: the cache-hit path of `search_properties`
(lines 404-407 of the source). -/
theorem search_properties_hit {α : Type} [LinearOrderedField α] [FloorRing α]
    (dist : GeoPoint → GeoPoint → α) (f : GeospatialFilter)
    (cache : CacheMap α) (env : SearchEnv) (v : List (ResultProp α))
    (h : cacheGet cache (get_cache_key f) env.now = some v) :
    search_properties dist f cache env = ⟨.ok v, cache, false, false, false, 0⟩ := by
  simp only [search_properties, h]

/-- Unfolding lemma: a failing store query reaches the outer `except`
and becomes an HTTP 500 (lines 483-484 of the source). -/
theorem search_properties_store_error {α : Type} [LinearOrderedField α] [FloorRing α]
    (dist : GeoPoint → GeoPoint → α) (f : GeospatialFilter)
    (cache : CacheMap α) (env : SearchEnv)
    (hc : cacheGet cache (get_cache_key f) env.now = none)
    (hs : env.storeResult = .error ()) :
    search_properties dist f cache env = ⟨.error 500, cache, true, false, false, 0⟩ := by
  simp only [search_properties, hc, hs]

/-- Unfolding lemma: the fallback path of `search_properties`
(lines 454-481): cache miss, empty store result, no distance failure. -/
theorem search_properties_fallback {α : Type} [LinearOrderedField α] [FloorRing α]
    (dist : GeoPoint → GeoPoint → α) (f : GeospatialFilter)
    (cache : CacheMap α) (env : SearchEnv)
    (hc : cacheGet cache (get_cache_key f) env.now = none)
    (hs : env.storeResult = .ok [])
    (hd : env.distRaises = false) :
    search_properties dist f cache env =
      ⟨.ok (mockAttached dist f
          (scrape_cian_properties env.scrapeFail env.rand "Moscow" f.radius_km)),
        cachePut cache (get_cache_key f)
          (mockAttached dist f
            (scrape_cian_properties env.scrapeFail env.rand "Moscow" f.radius_km))
          env.now,
        true, true, true,
        (scrape_cian_properties env.scrapeFail env.rand "Moscow" f.radius_km).length⟩ := by
  simp only [search_properties, hc, hs, hd, List.take_nil, List.isEmpty_nil,
    Bool.and_false, if_true, if_false, Bool.false_eq_true, ite_false, ite_true]

/-- If every mock listing lies beyond the radius, the fallback filter
keeps nothing. -/
theorem mockAttached_eq_nil {α : Type} [LinearOrderedField α] [FloorRing α]
    (dist : GeoPoint → GeoPoint → α) (f : GeospatialFilter)
    (mocks : List MockProp)
    (h : ∀ m ∈ mocks, ¬ dist f.center m.coordinates ≤ (f.radius_km : α)) :
    mockAttached dist f mocks = [] := by
  unfold mockAttached
  rw [List.filter_eq_nil_iff.mpr (by simpa using h)]
  rfl

/-! ### Claim C8: reference-point loading -/

/-- C8: after the initial load of reference points into an empty store,
the reference-point collection contains exactly 15 entries, and running
the load operation a second time (with any uuid supply, whether or not
it succeeds) leaves the collection unchanged. -/
theorem metro_stations_load_idempotent (ids ids2 : ℕ → String) (ok2 : Bool) :
    (load_moscow_metro_stations true ids []).length = 15 ∧
    load_moscow_metro_stations ok2 ids2 (load_moscow_metro_stations true ids []) =
      load_moscow_metro_stations true ids [] := by
  have hlen : (load_moscow_metro_stations true ids []).length = 15 := by
    simp [load_moscow_metro_stations, MOSCOW_METRO_STATIONS]
  refine ⟨hlen, ?_⟩
  cases ok2 with
  | false => simp [load_moscow_metro_stations]
  | true => simp [load_moscow_metro_stations, hlen]

/-! ### Claim C4: cache round-trip with TTL -/

/-- C4: the TTL constant is 1800 seconds; a `put` followed by a `get`
of the same fingerprint strictly less than 1800 seconds later returns
the stored list unchanged, and a `get` 1800 seconds or more after the
`put` behaves as a miss. -/
theorem cache_roundtrip_ttl {α : Type} (c : CacheMap α) (k : CacheKey)
    (v : List (ResultProp α)) (t now : ℚ) :
    cache_ttl = 1800 ∧
    (now - t < 1800 → cacheGet (cachePut c k v t) k now = some v) ∧
    (1800 ≤ now - t → cacheGet (cachePut c k v t) k now = none) :=
  ⟨rfl,
   fun h => cacheGet_cachePut_fresh c k v t now h,
   fun h => cacheGet_cachePut_stale c k v t now h⟩

theorem cache_roundtrip_ttl_witness :
    cacheGet (cachePut (emptyCache ℚ) (get_cache_key fW) [] 0)
      (get_cache_key fW) 10 = some [] ∧
    cacheGet (cachePut (emptyCache ℚ) (get_cache_key fW) [] 0)
      (get_cache_key fW) 1800 = none :=
  ⟨(cache_roundtrip_ttl (emptyCache ℚ) (get_cache_key fW) [] 0 10).2.1 (by norm_num),
   (cache_roundtrip_ttl (emptyCache ℚ) (get_cache_key fW) [] 0 1800).2.2 (by norm_num)⟩

/-! ### Claim C5: cache hit short-circuits the search -/

/-- C5: when the filter's fingerprint has an unexpired cache entry, the
search returns the cached list immediately: the store is not queried,
the fallback generator is not invoked, no background task is scheduled,
no distance is recomputed, and the cache is left unchanged. -/
theorem search_cache_hit_no_side_effects {α : Type} [LinearOrderedField α]
    [FloorRing α] (dist : GeoPoint → GeoPoint → α) (f : GeospatialFilter)
    (cache : CacheMap α) (env : SearchEnv) (v : List (ResultProp α))
    (h : cacheGet cache (get_cache_key f) env.now = some v) :
    search_properties dist f cache env = ⟨.ok v, cache, false, false, false, 0⟩ :=
  search_properties_hit dist f cache env v h

def cacheW5 : CacheMap ℚ := cachePut (emptyCache ℚ) (get_cache_key fW) [] 5

def envW5 : SearchEnv := ⟨10, .ok [], false, false, witRand, false, witRand⟩

theorem search_cache_hit_no_side_effects_witness :
    search_properties dist0 fW cacheW5 envW5 =
      ⟨.ok [], cacheW5, false, false, false, 0⟩ :=
  search_cache_hit_no_side_effects dist0 fW cacheW5 envW5 []
    (cacheGet_cachePut_fresh (emptyCache ℚ) (get_cache_key fW) [] 5 envW5.now
      (by norm_num [envW5, cache_ttl]))

/-! ### Claim C7: contact-info access control -/

/-- C7: requesting contact info for a missing listing yields 404; for an
existing listing, a requester outside the liker set is denied with 403
and no contact info, while a member of the liker set receives the
listing's contact info and source url. -/
theorem contact_access_control (coll : List DbProp) (pid : String) (tid : ℤ) :
    (findById coll pid = none → get_property_contact coll pid tid = .error 404) ∧
    (∀ p, findById coll pid = some p → tid ∉ p.liked_by →
      get_property_contact coll pid tid = .error 403) ∧
    (∀ p, findById coll pid = some p → tid ∈ p.liked_by →
      get_property_contact coll pid tid = .ok ⟨p.contact_info, p.source_url⟩) := by
  refine ⟨?_, ?_, ?_⟩
  · intro h; simp [get_property_contact, h]
  · intro p h hmem; simp [get_property_contact, h, hmem]
  · intro p h hmem; simp [get_property_contact, h, hmem]

def propW : DbProp :=
  { idStr := some "p1", title := "T", price := 100, coordinates := ⟨37.6, 55.7⟩,
    address := "A", area := none, rooms := none, property_type := none,
    description := none, contact_info := some "+7 (495) 123-45-67",
    images := [], source_url := some "https://www.cian.ru/rent/flat/123456/",
    liked_by := [123456789] }

def collW : List DbProp := [propW]

theorem contact_access_control_witness :
    get_property_contact collW "p1" 123456789 =
      .ok ⟨some "+7 (495) 123-45-67", some "https://www.cian.ru/rent/flat/123456/"⟩ ∧
    get_property_contact collW "p1" 987654321 = .error 403 ∧
    get_property_contact collW "missing" 123456789 = .error 404 :=
  ⟨(contact_access_control collW "p1" 123456789).2.2 propW rfl (by decide),
   (contact_access_control collW "p1" 987654321).2.1 propW rfl (by decide),
   (contact_access_control collW "missing" 123456789).1 rfl⟩

/-! ### Claim C3: cache-key determinism and rooms order -/

def f3a : GeospatialFilter := ⟨⟨37.6176, 55.7558⟩, 2, none, none, none, some [1, 2]⟩

def f3b : GeospatialFilter := ⟨⟨37.6176, 55.7558⟩, 2, none, none, none, some [2, 1]⟩

def f3c : GeospatialFilter := ⟨⟨37.6176, 55.7558⟩, 2, none, none, none, some [1, 2]⟩

/-- C3 counterexample: two filters with equal center, radius, price
bounds and property type whose rooms lists hold the same members in a
different order produce different fingerprints, because `json.dumps`
serializes the rooms value as an order-preserving JSON list. -/
theorem cache_key_rooms_order_counterexample :
    f3a.center = f3b.center ∧ f3a.radius_km = f3b.radius_km ∧
    f3a.property_type = f3b.property_type ∧ f3a.min_price = f3b.min_price ∧
    f3a.max_price = f3b.max_price ∧
    (f3a.rooms.getD []).Perm (f3b.rooms.getD []) ∧
    get_cache_key f3a ≠ get_cache_key f3b := by
  refine ⟨rfl, rfl, rfl, rfl, rfl, ?_, ?_⟩
  · decide
  · simp [get_cache_key, f3a, f3b]

/-- C3 amended: the fingerprint is a deterministic function of the
filter's field values — equal center, radius, price bounds, property
type and rooms list (members in the same order) give equal
fingerprints; the order of the rooms list's members, however, does
affect the fingerprint. -/
theorem cache_key_deterministic (f1 f2 : GeospatialFilter)
    (h1 : f1.center = f2.center) (h2 : f1.radius_km = f2.radius_km)
    (h3 : f1.property_type = f2.property_type) (h4 : f1.min_price = f2.min_price)
    (h5 : f1.max_price = f2.max_price) (h6 : f1.rooms = f2.rooms) :
    get_cache_key f1 = get_cache_key f2 := by
  unfold get_cache_key
  rw [h1, h2, h3, h4, h5, h6]

theorem cache_key_deterministic_witness :
    get_cache_key f3a = get_cache_key f3c :=
  cache_key_deterministic f3a f3c rfl rfl rfl rfl rfl rfl

/-! ### Claim C1: error handling of the search operation -/

/-- C1 amended: a failure inside the fallback generator degrades the
fallback response to the empty result list, but a failing store query,
and a failing distance computation — whether on a non-empty store
result or on the non-empty generated fallback list — reach the
handler's outer `except` clause and are re-raised as an HTTP 500 error;
they do not degrade to an empty result list. -/
theorem search_error_behavior {α : Type} [LinearOrderedField α] [FloorRing α]
    (dist : GeoPoint → GeoPoint → α) (f : GeospatialFilter)
    (cache : CacheMap α) (env : SearchEnv)
    (hc : cacheGet cache (get_cache_key f) env.now = none) :
    (env.storeResult = .error () →
      (search_properties dist f cache env).result = .error 500) ∧
    (∀ p ps, env.storeResult = .ok (p :: ps) → env.distRaises = true →
      (search_properties dist f cache env).result = .error 500) ∧
    (env.storeResult = .ok [] → env.scrapeFail = false → env.distRaises = true →
      (search_properties dist f cache env).result = .error 500) ∧
    (env.storeResult = .ok [] → env.scrapeFail = true →
      (search_properties dist f cache env).result = .ok []) := by
  refine ⟨?_, ?_, ?_, ?_⟩
  · intro hs
    rw [search_properties_store_error dist f cache env hc hs]
  · intro p ps hs hd
    simp [search_properties, hc, hs, hd]
  · intro hs hsf hd
    simp [search_properties, hc, hs, hsf, hd, scrape_cian_properties, cianBase]
  · intro hs hf
    simp [search_properties, hc, hs, hf, scrape_cian_properties, mockAttached]

def envErr : SearchEnv := ⟨0, .error (), false, false, witRand, false, witRand⟩

def envScrapeFail : SearchEnv := ⟨0, .ok [], false, true, witRand, false, witRand⟩

/-- A distance failure while processing a non-empty store result. -/
def envDistStore : SearchEnv := ⟨0, .ok [propW], true, false, witRand, false, witRand⟩

/-- A distance failure while filtering the (non-empty) fallback list. -/
def envDistMock : SearchEnv := ⟨0, .ok [], true, false, witRand, false, witRand⟩

theorem search_error_behavior_witness :
    (search_properties dist0 fW (emptyCache ℚ) envErr).result = .error 500 ∧
    (search_properties dist0 fW (emptyCache ℚ) envDistStore).result = .error 500 ∧
    (search_properties dist0 fW (emptyCache ℚ) envDistMock).result = .error 500 ∧
    (search_properties dist0 fW (emptyCache ℚ) envScrapeFail).result = .ok [] :=
  ⟨(search_error_behavior dist0 fW (emptyCache ℚ) envErr rfl).1 rfl,
   (search_error_behavior dist0 fW (emptyCache ℚ) envDistStore rfl).2.1 propW [] rfl rfl,
   (search_error_behavior dist0 fW (emptyCache ℚ) envDistMock rfl).2.2.1 rfl rfl rfl,
   (search_error_behavior dist0 fW (emptyCache ℚ) envScrapeFail rfl).2.2.2 rfl rfl⟩

/-- C1 counterexample: with an empty cache and a store query that
raises, the search operation surfaces an HTTP 500 error to the caller
instead of returning an empty result list. -/
theorem search_store_failure_counterexample :
    cacheGet (emptyCache ℚ) (get_cache_key fW) envErr.now = none ∧
    envErr.storeResult = .error () ∧
    (search_properties dist0 fW (emptyCache ℚ) envErr).result = .error 500 ∧
    (search_properties dist0 fW (emptyCache ℚ) envErr).result ≠ .ok [] := by
  refine ⟨rfl, rfl, ?_, ?_⟩
  · rw [search_properties_store_error dist0 fW (emptyCache ℚ) envErr rfl rfl]
  · rw [search_properties_store_error dist0 fW (emptyCache ℚ) envErr rfl rfl]
    simp

/-! ### Claim C6: structural bounds on fallback listings -/

/-- C6: for every radius input and every call, each listing produced by
the fallback generator has price in [40000, 150000], room count in
{1, 2, 3}, area in [35, 100], and a source-reference URL consisting of
the cian rent prefix and a numeric suffix (the later dedup key). -/
theorem fallback_listing_bounds (fail : Bool) (r : ScrapeRand) (hr : r.Valid)
    (loc : String) (radius : ℚ) :
    ∀ m ∈ scrape_cian_properties fail r loc radius,
      (40000 ≤ m.price ∧ m.price ≤ 150000) ∧
      (m.rooms = 1 ∨ m.rooms = 2 ∨ m.rooms = 3) ∧
      (35 ≤ m.area ∧ m.area ≤ 100) ∧
      ∃ n : ℕ, m.source_url = "https://www.cian.ru/rent/flat/" ++ toString n ++ "/" := by
  intro m hm
  cases fail with
  | true => simp [scrape_cian_properties] at hm
  | false =>
    simp only [scrape_cian_properties, Bool.false_eq_true, if_false] at hm
    rw [List.mem_append] at hm
    obtain ⟨-, hst⟩ := hr
    rcases hm with hb | hs
    · simp only [cianBase, List.mem_cons, List.not_mem_nil, or_false] at hb
      rcases hb with rfl | rfl | rfl
      · exact ⟨⟨by norm_num, by norm_num⟩, Or.inr (Or.inl rfl),
          ⟨by norm_num, by norm_num⟩, ⟨123456, rfl⟩⟩
      · exact ⟨⟨by norm_num, by norm_num⟩, Or.inl rfl,
          ⟨by norm_num, by norm_num⟩, ⟨789012, rfl⟩⟩
      · exact ⟨⟨by norm_num, by norm_num⟩, Or.inr (Or.inr rfl),
          ⟨by norm_num, by norm_num⟩, ⟨345678, rfl⟩⟩
    · rw [List.mem_flatMap] at hs
      obtain ⟨i, hi, hmi⟩ := hs
      rw [List.mem_range] at hi
      simp only [cianStationPair, List.mem_cons, List.not_mem_nil, or_false] at hmi
      rcases hmi with rfl | rfl
      · obtain ⟨-, -, hp, -, -, -, -, ha, hrm, -, -, -, -⟩ := hst i hi 0 (by norm_num)
        simp only [cianStationProp]
        exact ⟨hp, by omega, ha, ⟨r.urlNum i 0, rfl⟩⟩
      · obtain ⟨-, -, hp, -, -, -, -, ha, hrm, -, -, -, -⟩ := hst i hi 1 (by norm_num)
        simp only [cianStationProp]
        exact ⟨hp, by omega, ha, ⟨r.urlNum i 1, rfl⟩⟩

/-- The first fixed mock listing, with `witRand`'s zero jitter. -/
def pw6 : MockProp :=
  { title := "2-комнатная квартира, 65 м²", price := 85000,
    coordinates := ⟨37.6176, 55.7558⟩, address := "ул. Тверская, 12",
    area := 65, rooms := 2, description := "Уютная квартира в центре Москвы",
    contact_info := "+7 (495) 123-45-67", images := [],
    source_url := "https://www.cian.ru/rent/flat/123456/" }

theorem fallback_listing_bounds_witness :
    witRand.Valid ∧
    ((40000 ≤ pw6.price ∧ pw6.price ≤ 150000) ∧
     (pw6.rooms = 1 ∨ pw6.rooms = 2 ∨ pw6.rooms = 3) ∧
     (35 ≤ pw6.area ∧ pw6.area ≤ 100) ∧
     ∃ n : ℕ, pw6.source_url = "https://www.cian.ru/rent/flat/" ++ toString n ++ "/") :=
  ⟨witRand_valid,
   fallback_listing_bounds false witRand witRand_valid "Moscow" 1 pw6
     (by simp [scrape_cian_properties, cianBase, witRand, pw6])⟩

/-! ### Claim C10: an empty fallback response is cached and served -/

/-- C10: on a cache miss with an empty store result, if every
fallback-generated listing lies beyond the filter's radius, the search
caches and returns the empty list (and schedules the background task);
any identical search strictly within the next 1800 seconds is then
served that empty list from the cache, without querying the store or
the fallback generator and without scheduling another background task,
whatever the store holds by then. -/
theorem search_empty_fallback_cached {α : Type} [LinearOrderedField α]
    [FloorRing α] (dist : GeoPoint → GeoPoint → α) (f : GeospatialFilter)
    (cache : CacheMap α) (env : SearchEnv)
    (hc : cacheGet cache (get_cache_key f) env.now = none)
    (hs : env.storeResult = .ok [])
    (hd : env.distRaises = false)
    (hfar : ∀ m ∈ scrape_cian_properties env.scrapeFail env.rand "Moscow" f.radius_km,
      ¬ dist f.center m.coordinates ≤ (f.radius_km : α)) :
    (search_properties dist f cache env).result = .ok [] ∧
    (search_properties dist f cache env).cache =
      cachePut cache (get_cache_key f) [] env.now ∧
    (search_properties dist f cache env).bgScheduled = true ∧
    (∀ env2 : SearchEnv, env2.now - env.now < cache_ttl →
      (search_properties dist f (search_properties dist f cache env).cache
        env2).result = .ok [] ∧
      (search_properties dist f (search_properties dist f cache env).cache
        env2).storeQueried = false ∧
      (search_properties dist f (search_properties dist f cache env).cache
        env2).scrapeCalled = false ∧
      (search_properties dist f (search_properties dist f cache env).cache
        env2).bgScheduled = false) := by
  have hnil := mockAttached_eq_nil dist f
    (scrape_cian_properties env.scrapeFail env.rand "Moscow" f.radius_km) hfar
  have h1 := search_properties_fallback dist f cache env hc hs hd
  rw [hnil] at h1
  refine ⟨by rw [h1], by rw [h1], by rw [h1], ?_⟩
  intro env2 hfresh
  have hhit : cacheGet (search_properties dist f cache env).cache
      (get_cache_key f) env2.now = some [] := by
    rw [h1]
    exact cacheGet_cachePut_fresh cache (get_cache_key f) [] env.now env2.now hfresh
  rw [search_properties_hit dist f (search_properties dist f cache env).cache
    env2 [] hhit]
  exact ⟨rfl, rfl, rfl, rfl⟩

/-- A distance evaluator placing everything 20000 km away. -/
def distFar : GeoPoint → GeoPoint → ℚ := fun _ _ => 20000

def envW10 : SearchEnv := ⟨0, .ok [], false, false, witRand, false, witRand⟩

def envW10b : SearchEnv := ⟨100, .ok [propW], false, false, witRand, false, witRand⟩

theorem search_empty_fallback_cached_witness :
    (search_properties distFar fW (emptyCache ℚ) envW10).result = .ok [] ∧
    (search_properties distFar fW
        (search_properties distFar fW (emptyCache ℚ) envW10).cache
        envW10b).result = .ok [] ∧
    (search_properties distFar fW
        (search_properties distFar fW (emptyCache ℚ) envW10).cache
        envW10b).storeQueried = false := by
  have h := search_empty_fallback_cached distFar fW (emptyCache ℚ) envW10 rfl rfl rfl
    (by intro m _; norm_num [distFar, fW])
  have h2 := h.2.2.2 envW10b (by norm_num [envW10, envW10b, cache_ttl])
  exact ⟨h.1, h2.1, h2.2.1⟩

/-! ### Claim C9: the distance evaluator is symmetric and zero on the diagonal -/

/-- C9: for valid GeoPoints the (spec-modelled) great-circle distance
is symmetric and is exactly zero between a point and itself; being a
pure function of its arguments it has no side effects. -/
theorem distance_symm_and_zero (a b : GeoPoint) (ha : a.Valid) (hb : b.Valid) :
    haversineKm a b = haversineKm b a ∧ haversineKm a a = 0 := by
  constructor
  · have key : ∀ x y : ℝ, Real.sin ((x - y) * Real.pi / 180 / 2) ^ 2
        = Real.sin ((y - x) * Real.pi / 180 / 2) ^ 2 := by
      intro x y
      rw [show (x - y) * Real.pi / 180 / 2 = -((y - x) * Real.pi / 180 / 2) by ring,
        Real.sin_neg, neg_sq]
    unfold haversineKm deg2rad
    rw [key ((b.lat : ℝ)) ((a.lat : ℝ)), key ((b.lon : ℝ)) ((a.lon : ℝ)),
      mul_comm (Real.cos ((a.lat : ℝ) * Real.pi / 180))
        (Real.cos ((b.lat : ℝ) * Real.pi / 180))]
  · unfold haversineKm deg2rad
    simp

def pA : GeoPoint := ⟨37.6, 55.7⟩

def pB : GeoPoint := ⟨37.7, 55.8⟩

theorem distance_symm_and_zero_witness :
    pA.Valid ∧ pB.Valid ∧
    (haversineKm pA pB = haversineKm pB pA ∧ haversineKm pA pA = 0) :=
  ⟨by norm_num [GeoPoint.Valid, pA], by norm_num [GeoPoint.Valid, pB],
   distance_symm_and_zero pA pB (by norm_num [GeoPoint.Valid, pA])
     (by norm_num [GeoPoint.Valid, pB])⟩

/-! ### Claim C2: fallback filtering and the non-emptiness failure -/

/-- Numeric core for the counterexample: when the latitude-difference
half-angle lies between 95/2 and 96/2 degrees, the haversine distance
exceeds 1 km whatever the (nonnegative) longitude-term contribution. -/
theorem hav_lower_bound (u c : ℝ) (hu1 : (95:ℝ) ≤ u) (hu2 : u ≤ 96) (hc : 0 ≤ c) :
    (1:ℝ) < 2 * EARTH_RADIUS_KM *
      Real.arcsin (Real.sqrt (Real.sin (u * Real.pi / 180 / 2) ^ 2 + c)) := by
  have hπ3 : (3:ℝ) < Real.pi := Real.pi_gt_three
  have hπpos : (0:ℝ) < Real.pi := Real.pi_pos
  set t := u * Real.pi / 180 / 2 with ht
  have ht1 : Real.pi / 4 ≤ t := by
    rw [ht]
    nlinarith [mul_nonneg (by linarith : (0:ℝ) ≤ u - 90) hπpos.le]
  have ht2 : t ≤ Real.pi / 2 := by
    rw [ht]
    nlinarith [mul_nonneg (by linarith : (0:ℝ) ≤ 180 - u) hπpos.le]
  have hs1 : Real.sin (Real.pi / 4) ≤ Real.sin t :=
    Real.strictMonoOn_sin.monotoneOn ⟨by linarith, by linarith⟩
      ⟨by linarith, ht2⟩ ht1
  have hs2 : Real.sqrt 2 / 2 ≤ Real.sin t := by
    rw [← Real.sin_pi_div_four]; exact hs1
  have hsq2 : (Real.sqrt 2 / 2) ^ 2 = 1 / 2 := by
    rw [div_pow, Real.sq_sqrt (by norm_num : (0:ℝ) ≤ 2)]; norm_num
  have h0 : (0:ℝ) ≤ Real.sqrt 2 / 2 := by positivity
  have hsq : (1:ℝ) / 2 ≤ Real.sin t ^ 2 := by
    calc (1:ℝ) / 2 = (Real.sqrt 2 / 2) ^ 2 := hsq2.symm
    _ ≤ Real.sin t ^ 2 := pow_le_pow_left₀ h0 hs2 2
  have hsqrt : Real.sqrt 2 / 2 ≤ Real.sqrt (Real.sin t ^ 2 + c) := by
    apply Real.le_sqrt_of_sq_le
    rw [hsq2]; linarith
  have harc : Real.pi / 4 ≤ Real.arcsin (Real.sqrt (Real.sin t ^ 2 + c)) :=
    Real.pi_div_four_le_arcsin.mpr hsqrt
  have hER : EARTH_RADIUS_KM = 6371 := rfl
  rw [hER]
  nlinarith [harc, hπ3]

/-- Any point with latitude between 55 and 56 degrees lies more than
1 km (in fact thousands of km) from any point at latitude -40. -/
theorem haversineFar (lon1 lon2 lat2 : ℚ) (h1 : (55:ℚ) ≤ lat2) (h2 : lat2 ≤ 56) :
    (1:ℝ) < haversineKm ⟨lon1, -40⟩ ⟨lon2, lat2⟩ := by
  have hL1 : (55:ℝ) ≤ ((lat2 : ℚ) : ℝ) := by exact_mod_cast h1
  have hL2 : ((lat2 : ℚ) : ℝ) ≤ 56 := by exact_mod_cast h2
  have hπpos : (0:ℝ) < Real.pi := Real.pi_pos
  have hcast : (((-40 : ℚ)) : ℝ) = -40 := by push_cast; ring
  have hc : 0 ≤ Real.cos ((((-40 : ℚ)) : ℝ) * Real.pi / 180) *
      Real.cos (((lat2 : ℚ) : ℝ) * Real.pi / 180) *
      Real.sin ((((lon2 : ℚ) : ℝ) - ((lon1 : ℚ) : ℝ)) * Real.pi / 180 / 2) ^ 2 := by
    apply mul_nonneg
    · apply mul_nonneg
      · apply Real.cos_nonneg_of_mem_Icc
        rw [hcast]
        constructor
        · linarith
        · linarith
      · apply Real.cos_nonneg_of_mem_Icc
        constructor
        · nlinarith [mul_nonneg (by linarith : (0:ℝ) ≤ ((lat2:ℚ):ℝ) + 90) hπpos.le]
        · nlinarith [mul_nonneg (by linarith : (0:ℝ) ≤ 90 - ((lat2:ℚ):ℝ)) hπpos.le]
    · exact sq_nonneg _
  have harg : ((lat2 : ℚ) : ℝ) - (((-40 : ℚ)) : ℝ) = ((lat2 : ℚ) : ℝ) + 40 := by
    rw [hcast]; ring
  show (1:ℝ) < 2 * EARTH_RADIUS_KM * Real.arcsin (Real.sqrt
    (Real.sin ((((lat2 : ℚ) : ℝ) - (((-40 : ℚ)) : ℝ)) * Real.pi / 180 / 2) ^ 2 +
     Real.cos ((((-40 : ℚ)) : ℝ) * Real.pi / 180) *
       Real.cos (((lat2 : ℚ) : ℝ) * Real.pi / 180) *
       Real.sin ((((lon2 : ℚ) : ℝ) - ((lon1 : ℚ) : ℝ)) * Real.pi / 180 / 2) ^ 2))
  rw [harg]
  exact hav_lower_bound (((lat2 : ℚ) : ℝ) + 40) _ (by linarith) (by linarith) hc

/-- Every listing the fallback generator produces under `witRand` has
latitude between 55 and 56 degrees (downtown Moscow plus zero jitter). -/
theorem scrape_lat_bounds (loc : String) (radius : ℚ) (m : MockProp)
    (hm : m ∈ scrape_cian_properties false witRand loc radius) :
    (55:ℚ) ≤ m.coordinates.lat ∧ m.coordinates.lat ≤ 56 := by
  simp only [scrape_cian_properties, Bool.false_eq_true, if_false, List.mem_append,
    cianBase, List.mem_cons, List.not_mem_nil, or_false, List.mem_flatMap,
    List.mem_range, cianStationPair] at hm
  rcases hm with (rfl | rfl | rfl) | ⟨i, hi, rfl | rfl⟩
  · constructor <;> norm_num [witRand]
  · constructor <;> norm_num [witRand]
  · constructor <;> norm_num [witRand]
  · interval_cases i <;>
      constructor <;> norm_num [cianStationProp, witRand, MOSCOW_METRO_STATIONS]
  · interval_cases i <;>
      constructor <;> norm_num [cianStationProp, witRand, MOSCOW_METRO_STATIONS]

/-- The search filter of the counterexample: a valid center at latitude
-40 (far from every generated listing), radius 1 km. -/
def fC2 : GeospatialFilter := ⟨⟨37.6176, -40⟩, 1, none, none, none, none⟩

/-- C2 counterexample: with an empty cache and a store query returning
zero listings, the search at a (valid) faraway center returns the
empty list — the fallback-filtered response is not always non-empty. -/
theorem search_zero_store_empty_counterexample :
    fC2.center.Valid ∧
    cacheGet (emptyCache ℝ) (get_cache_key fC2) envW10.now = none ∧
    envW10.storeResult = .ok [] ∧
    (search_properties haversineKm fC2 (emptyCache ℝ) envW10).result = .ok [] := by
  refine ⟨by norm_num [GeoPoint.Valid, fC2], rfl, rfl, ?_⟩
  have hfar : ∀ m ∈ scrape_cian_properties envW10.scrapeFail envW10.rand
      "Moscow" fC2.radius_km,
      ¬ haversineKm fC2.center m.coordinates ≤ ((fC2.radius_km : ℚ) : ℝ) := by
    intro m hm hle
    have hlat := scrape_lat_bounds "Moscow" fC2.radius_km m hm
    have hgt := haversineFar 37.6176 m.coordinates.lon m.coordinates.lat hlat.1 hlat.2
    have hcast : ((fC2.radius_km : ℚ) : ℝ) = 1 := by norm_num [fC2]
    rw [hcast] at hle
    exact absurd hle (not_le.mpr hgt)
  rw [search_properties_fallback haversineKm fC2 (emptyCache ℝ) envW10 rfl rfl rfl,
    mockAttached_eq_nil haversineKm fC2 _ hfar]

/-- C2 amended: on a cache miss whose store query returns zero
listings, the fallback-filtered response contains only listings whose
computed distance to the filter's center is at most the radius — but
the response can be empty when every generated listing lies beyond the
radius, so non-emptiness is not guaranteed. -/
theorem search_fallback_within_radius {α : Type} [LinearOrderedField α]
    [FloorRing α] (dist : GeoPoint → GeoPoint → α) (f : GeospatialFilter)
    (cache : CacheMap α) (env : SearchEnv) (l : List (ResultProp α))
    (hc : cacheGet cache (get_cache_key f) env.now = none)
    (hs : env.storeResult = .ok [])
    (hd : env.distRaises = false)
    (hr : (search_properties dist f cache env).result = .ok l) :
    ∀ p ∈ l, dist f.center p.prop.coordinates ≤ (f.radius_km : α) := by
  rw [search_properties_fallback dist f cache env hc hs hd] at hr
  have hr2 : (Except.ok (mockAttached dist f (scrape_cian_properties
      env.scrapeFail env.rand "Moscow" f.radius_km)) :
      Except ℕ (List (ResultProp α))) = Except.ok l := hr
  injection hr2 with h
  subst h
  intro p hp
  unfold mockAttached at hp
  rw [List.mem_map] at hp
  obtain ⟨m, hm, rfl⟩ := hp
  rw [List.mem_filter] at hm
  exact of_decide_eq_true hm.2

theorem search_fallback_within_radius_witness :
    cacheGet (emptyCache ℚ) (get_cache_key fW) envW10.now = none ∧
    (search_properties dist0 fW (emptyCache ℚ) envW10).result =
      .ok (mockAttached dist0 fW
        (scrape_cian_properties false witRand "Moscow" fW.radius_km)) ∧
    dist0 fW.center pw6.toDbProp.coordinates ≤ ((fW.radius_km : ℚ)) := by
  have hres : (search_properties dist0 fW (emptyCache ℚ) envW10).result =
      .ok (mockAttached dist0 fW
        (scrape_cian_properties false witRand "Moscow" fW.radius_km)) := by
    rw [search_properties_fallback dist0 fW (emptyCache ℚ) envW10 rfl rfl rfl]
    rfl
  refine ⟨rfl, hres, ?_⟩
  refine search_fallback_within_radius dist0 fW (emptyCache ℚ) envW10 _
    rfl rfl rfl hres ⟨pw6.toDbProp, round2 (dist0 fW.center pw6.coordinates)⟩ ?_
  unfold mockAttached
  apply List.mem_map_of_mem
  rw [List.mem_filter]
  constructor
  · simp [scrape_cian_properties, cianBase, witRand, pw6]
  · simp [dist0, fW]

end HousingSearch
